import Mathlib

/-!
Shallow embedding of the NSIS Script Generator's core renderer
(`generate_nsis_script_from_config` in `src/nsis-script-generator.py`,
together with the module-level template `NSI_TEMPLATE`).

The Python renderer works on a `dict` of configuration values (strings,
booleans, `None`, and one list of strings), consults the file system through
`os.path.exists` / `os.path.abspath`, reads the clock through
`datetime.datetime.now()`, prints a few diagnostic lines, and finally
substitutes a fixed textual template with `str.format`.  The embedding makes
all of that explicit:

* `PyVal` is the type of the dictionary values this program stores;
  `Dict` is an insertion-ordered association list mirroring a Python dict
  (`dset` is item assignment, `dfind` is lookup, `dget` is `dict.get`).
* `Env` packages the impure inputs: the `os.path.exists` oracle, the
  `os.path.abspath` resolver (`none` models the resolver raising, the case
  the source guards with `except Exception`), and the two clock readings.
* Uncaught Python exceptions are modelled by `Except PyErr`; the renderer's
  `print` calls are collected in a log, and its return value (`None` or the
  script text) together with the possibly mutated config dict forms
  `RenderResult`.
* `NSI_TEMPLATE` is the source template split at its `{slot}` markers, and
  `formatTpl` models `str.format`, raising `KeyError` on the first unbound
  slot.
-/

namespace NSIS

set_option maxRecDepth 100000

/-- Values stored in this program's configuration dictionary: Python `str`,
`bool`, `int`, `None`, and the one list (of language names) the collector
builds. -/
inductive PyVal where
  | vstr (s : String)
  | vbool (b : Bool)
  | vint (n : Int)
  | vnone
  | vlist (l : List String)
deriving DecidableEq, Repr

/-- A Python dict with string keys, as an insertion-ordered association
list. -/
abbrev Dict := List (String × PyVal)

/-- Dict lookup, `d[key]` when present. -/
def dfind : Dict → String → Option PyVal
  | [], _ => none
  | (k, v) :: rest, key => if k = key then some v else dfind rest key

/-- Dict item assignment `d[k] = v`: replaces in place, else appends
(Python dicts preserve insertion order). -/
def dset : Dict → String → PyVal → Dict
  | [], k, v => [(k, v)]
  | (k', v') :: rest, k, v => if k' = k then (k, v) :: rest else (k', v') :: dset rest k v

/-- Python `d.get(k, dflt)`. -/
def dget (d : Dict) (k : String) (dflt : PyVal) : PyVal :=
  (dfind d k).getD dflt

/-- Python `d.update(src)`: assign every item of `src` into `d`, in order. -/
def dupdate (d : Dict) (src : Dict) : Dict :=
  src.foldl (fun acc kv => dset acc kv.1 kv.2) d

/-- Uncaught Python exceptions the renderer can raise. -/
inductive PyErr where
  | keyError (k : String)
  | attributeError (m : String)
  | typeError (m : String)
deriving DecidableEq, Repr

/-- Python truthiness of the values this program stores. -/
def truthy : PyVal → Bool
  | .vstr s => !(s == "")
  | .vbool b => b
  | .vint n => !(n == 0)
  | .vnone => false
  | .vlist l => !l.isEmpty

/-- Python `str(v)` for the values this program stores (for the list case:
`repr` of a list of quote-free strings, which is what the collector builds). -/
def pyStr : PyVal → String
  | .vstr s => s
  | .vbool b => if b then "True" else "False"
  | .vint n => toString n
  | .vnone => "None"
  | .vlist l => "[" ++ String.intercalate ", " (l.map (fun s => "\x27" ++ s ++ "\x27")) ++ "]"

/-- Python direct indexing `config[k]`: raises `KeyError` when absent. -/
def ditem (config : Dict) (k : String) : Except PyErr PyVal :=
  match dfind config k with
  | some v => .ok v
  | none => .error (.keyError k)

/-- Python `sep.join(items)`. -/
def joinWith (sep : String) : List String → String
  | [] => ""
  | [x] => x
  | x :: y :: xs => x ++ sep ++ joinWith sep (y :: xs)

/-- Python `v.lower()` on the ASCII strings this program handles; raises
`AttributeError` on non-strings. -/
def pyLower : PyVal → Except PyErr String
  | .vstr s => .ok ⟨s.data.map Char.toLower⟩
  | _ => .error (.attributeError "lower")

/-- Python `s.replace(p, rep)` for the single-character patterns the source
uses (`"/"` and a single backslash). -/
def replaceChar (p : Char) (rep : String) (s : String) : String :=
  ⟨(s.data.map (fun c => if c = p then rep.data else [c])).flatten⟩

/-- Python `v.replace(p, rep)`; raises `AttributeError` on non-strings (in
particular on `None`, as stored by the collector when no main executable was
selected). -/
def pyReplace (v : PyVal) (p : Char) (rep : String) : Except PyErr String :=
  match v with
  | .vstr s => .ok (replaceChar p rep s)
  | _ => .error (.attributeError "replace")

/-- Python `s.endswith(suffix)`. -/
def endsWithStr (s suffix : String) : Bool :=
  suffix.data.isSuffixOf s.data

/-- Python iteration over the values this renderer iterates (the language
list; iterating a string yields its characters); anything else raises
`TypeError`. -/
def pyIter : PyVal → Except PyErr (List String)
  | .vlist l => .ok l
  | .vstr s => .ok (s.data.map (fun c => ⟨[c]⟩))
  | _ => .error (.typeError "object is not iterable")

/-- The impure inputs of the renderer, made explicit: the file-system
existence oracle behind `os.path.exists`, the `os.path.abspath` resolver
(`none` models it raising), and the two `datetime.datetime.now()` readings
taken at the top of `generate_nsis_script_from_config`. -/
structure Env where
  pathExists : String → Bool
  absPath : String → Option String
  genDate : String
  currentYear : Int

/-- Python `os.path.exists(v)` for the string paths this program checks;
the collector only ever stores strings (or `None`, which is shielded by the
truthiness guard at every call site). -/
def pyExists (env : Env) : PyVal → Except PyErr Bool
  | .vstr s => .ok (env.pathExists s)
  | _ => .error (.typeError "os.path.exists argument")

/-- Python `os.path.abspath(v)`; raises `TypeError` on non-strings, and the
environment may report a resolution failure (the case the source guards with
a bare `except Exception`). -/
def pyAbsPath (env : Env) (v : PyVal) : Except PyErr String :=
  match v with
  | .vstr s =>
    match env.absPath s with
    | some a => .ok a
    | none => .error (.typeError "abspath failure")
  | _ => .error (.typeError "abspath of non-string")

/-- The compound guard `config.get(k) and os.path.exists(config[k])` used at
lines 356, 363, 365, 367, 422 and 425 of the source. -/
def fieldExists (env : Env) (config : Dict) (k : String) : Except PyErr Bool :=
  if truthy (dget config k .vnone) then
    match ditem config k with
    | .error e => .error e
    | .ok v => pyExists env v
  else .ok false

/-- Result of one renderer call: the Python return value (`none` models the
function returning `None`), the config dict after the call (the source
mutates `config['show_license_page']` in place), and the lines printed. -/
structure RenderResult where
  output : Option String
  config : Dict
  log : List String
deriving DecidableEq, Repr

/-- One language-registration directive,
`!insertmacro MUI_LANGUAGE "lang"` (source line 336). -/
def langDirective (lang : String) : String :=
  "!insertmacro MUI_LANGUAGE \"" ++ lang ++ "\""

/-- Lines 330-342: build the `language_macros` block and the diagnostic
print; falls back to a single hard-coded English directive (with a warning)
when the language list is absent or empty. -/
def languageMacroStep (config : Dict) : Except PyErr (String × List String) :=
  match dfind config "selected_languages" with
  | some v =>
    if truthy v then
      match pyIter v with
      | .error e => .error e
      | .ok langs =>
        .ok (joinWith "\n" (langs.map langDirective),
             ["Debug: Languages selected for NSIS: " ++ pyStr v])
    else
      .ok (joinWith "\n" [langDirective "English"],
           ["Warning: No languages selected, defaulting to English."])
  | none =>
    .ok (joinWith "\n" [langDirective "English"],
         ["Warning: No languages selected, defaulting to English."])

/-- Line 345: choose the install-root token from `prefer_64bit` (default
`True`) and `request_admin` (default `True` in the first conjunct, default
`False` in the `elif`). -/
def installDirBase (config : Dict) : String :=
  if truthy (dget config "prefer_64bit" (.vbool true)) &&
     truthy (dget config "request_admin" (.vbool true)) then "$PROGRAMFILES64"
  else if truthy (dget config "request_admin" (.vbool false)) then "$PROGRAMFILES"
  else "$LOCALAPPDATA"

/-- Line 346: the execution-level directive. -/
def requestExecutionLevel (config : Dict) : String :=
  if truthy (dget config "request_admin" (.vbool true)) then
    "RequestExecutionLevel admin"
  else "RequestExecutionLevel user"

/-- Line 347: the registry hive token, chosen once per render. -/
def adminRegistry (config : Dict) : String :=
  if truthy (dget config "request_admin" (.vbool true)) then "HKLM" else "HKCU"

/-- Lines 349-352: the compression directive; `.lower()` raises on a
non-string method. -/
def setCompressorCommand (config : Dict) : Except PyErr String :=
  match pyLower (dget config "compression" (.vstr "lzma")) with
  | .error e => .error e
  | .ok comp =>
    let solid := truthy (dget config "solid_compression" (.vbool true))
    .ok ("SetCompressor " ++ (if solid then "/SOLID " else "") ++ comp)

/-- Lines 363-368: the icon-related MUI defines (installer icon, then
uninstaller icon with fallback to the installer icon). -/
def muiIconDefs (env : Env) (config : Dict) (defs : List String) :
    Except PyErr (List String) :=
  match fieldExists env config "installer_icon" with
  | .error e => .error e
  | .ok instCond =>
    match (if instCond then
             match ditem config "installer_icon" with
             | .error e => .error e
             | .ok iv => .ok (defs ++ ["!define MUI_ICON \"" ++ pyStr iv ++ "\""])
           else .ok defs : Except PyErr (List String)) with
    | .error e => .error e
    | .ok defs2 =>
      match fieldExists env config "uninstaller_icon" with
      | .error e => .error e
      | .ok unCond =>
        if unCond then
          match ditem config "uninstaller_icon" with
          | .error e => .error e
          | .ok uv => .ok (defs2 ++ ["!define MUI_UNICON \"" ++ pyStr uv ++ "\""])
        else
          match fieldExists env config "installer_icon" with
          | .error e => .error e
          | .ok instCond2 =>
            if instCond2 then
              match ditem config "installer_icon" with
              | .error e => .error e
              | .ok iv => .ok (defs2 ++ ["!define MUI_UNICON \"" ++ pyStr iv ++ "\""])
            else .ok defs2

/-- Lines 354-369: build `mui_defines` and, when the license file is unset
or missing, force `config['show_license_page'] = False` in place (line 361).
Returns the joined defines together with the (possibly mutated) config. -/
def muiDefinesStep (env : Env) (config : Dict) : Except PyErr (String × Dict) :=
  let defs0 := ["!define MUI_ABORTWARNING"]
  match fieldExists env config "license_file" with
  | .error e => .error e
  | .ok licCond =>
    if licCond then
      match ditem config "license_file" with
      | .error e => .error e
      | .ok lv =>
        match pyLower lv with
        | .error e => .error e
        | .ok ls =>
          let defs1 :=
            if endsWithStr ls ".rtf" then
              defs0 ++ ["!define MUI_LICENSEPAGE_CHECKBOX"]
            else defs0
          match muiIconDefs env config defs1 with
          | .error e => .error e
          | .ok defs2 => .ok (joinWith "\n" defs2, config)
    else
      let config2 := dset config "show_license_page" (.vbool false)
      match muiIconDefs env config2 defs0 with
      | .error e => .error e
      | .ok defs2 => .ok (joinWith "\n" defs2, config2)

/-- Line 372. -/
def pageWelcome (config : Dict) : String :=
  if truthy (dget config "show_welcome_page" (.vbool true)) then
    "!insertmacro MUI_PAGE_WELCOME"
  else "; Welcome page disabled"

/-- Line 373. -/
def pageFinish (config : Dict) : String :=
  if truthy (dget config "show_finish_page" (.vbool true)) then
    "!insertmacro MUI_PAGE_FINISH"
  else "; Finish page disabled"

/-- Line 374. -/
def pageDirectory (config : Dict) : String :=
  if truthy (dget config "show_directory_page" (.vbool true)) then
    "!insertmacro MUI_PAGE_DIRECTORY"
  else "; Directory page disabled"

/-- Line 376: the license-page directive, emitted only when the (possibly
just-mutated) `show_license_page` flag and the `license_file` value are both
truthy. -/
def pageLicense (config : Dict) : Except PyErr String :=
  if truthy (dget config "show_license_page" (.vbool false)) &&
     truthy (dget config "license_file" .vnone) then
    match ditem config "license_file" with
    | .error e => .error e
    | .ok lv => .ok ("!insertmacro MUI_PAGE_LICENSE \"" ++ pyStr lv ++ "\"")
  else .ok "; License page disabled or no file specified/found"

/-- Lines 384-416: the install and uninstall shortcut blocks, generated
together. -/
def shortcutBlocks (config : Dict) : String × String :=
  let admin := truthy (dget config "request_admin" (.vbool true))
  let createLines0 :=
    if admin then ["  SetShellVarContext all ; Install for all users"] else []
  let removeLines0 :=
    if admin then ["  SetShellVarContext all ; Remove for all users"] else []
  let mainExePath :=
    "$INSTDIR\\" ++ pyStr (dget config "main_executable" (.vstr "MissingExecutable.exe"))
  let appName := pyStr (dget config "app_name" (.vstr "MyApp"))
  let smFolderVar := "$StartMenuFolder"
  let afterSM :=
    if truthy (dget config "create_startmenu_shortcut" (.vbool true)) then
      let smLink := "$SMPROGRAMS\\" ++ smFolderVar ++ "\\" ++ appName ++ ".lnk"
      (createLines0 ++
        ["  ; Create Start Menu Shortcuts",
         "  CreateDirectory \"$SMPROGRAMS\\" ++ smFolderVar ++ "\"",
         "  CreateShortCut \"" ++ smLink ++ "\" \"" ++ mainExePath ++ "\" \"\" \"" ++
           mainExePath ++ "\" 0"],
       removeLines0 ++
        ["  ; Remove Start Menu Shortcuts",
         "  Delete \"" ++ smLink ++ "\"",
         "  RMDir \"$SMPROGRAMS\\" ++ smFolderVar ++ "\" ; Only removes if empty"])
    else (createLines0, removeLines0)
  let afterDesktop :=
    if truthy (dget config "create_desktop_shortcut" (.vbool true)) then
      let desktopLink := "$DESKTOP\\" ++ appName ++ ".lnk"
      (afterSM.1 ++
        ["  ; Create Desktop Shortcut",
         "  CreateShortCut \"" ++ desktopLink ++ "\" \"" ++ mainExePath ++ "\" \"\" \"" ++
           mainExePath ++ "\" 0"],
       afterSM.2 ++
        ["  ; Remove Desktop Shortcut",
         "  Delete \"" ++ desktopLink ++ "\""])
    else afterSM
  (if afterDesktop.1.isEmpty then "  ; No shortcuts configured"
   else joinWith "\n" afterDesktop.1,
   if afterDesktop.2.isEmpty then "  ; No shortcuts configured"
   else joinWith "\n" afterDesktop.2)

/-- Lines 420-426: pick the icon whose path goes into the `DisplayIcon`
registry entry (explicit uninstaller icon if set and existing, else the
installer icon if set and existing, else `None`). -/
def pickUninstIcon (env : Env) (config : Dict) : Except PyErr PyVal :=
  match fieldExists env config "uninstaller_icon" with
  | .error e => .error e
  | .ok b1 =>
    if b1 then ditem config "uninstaller_icon"
    else
      match fieldExists env config "installer_icon" with
      | .error e => .error e
      | .ok b2 =>
        if b2 then ditem config "installer_icon" else .ok .vnone

/-- Lines 419-438: the `uninstall_icon_reg` line.  With a chosen icon, its
absolute path (backslashes doubled) is written; if absolute-path resolution
raises, the handler falls back to the main executable with a trailing
comment; with no icon at all, the main executable is used directly.  In the
two fallback branches `config.get("main_executable", "?.exe").replace(...)`
raises `AttributeError` when the collector stored `None`. -/
def uninstallIconReg (env : Env) (config : Dict) (adminreg : String) :
    Except PyErr String :=
  match pickUninstIcon env config with
  | .error e => .error e
  | .ok iconVal =>
    if truthy iconVal then
      match (match pyAbsPath env iconVal with
             | .error e => .error e
             | .ok a =>
               let absIcon := replaceChar '\\' "\\\\" a
               match ditem config "uninstall_reg_key" with
               | .error e => .error e
               | .ok rk =>
                 .ok ("WriteRegStr " ++ adminreg ++ " \"" ++ pyStr rk ++
                      "\" \"DisplayIcon\" \"" ++ absIcon ++ "\"") :
             Except PyErr String) with
      | .ok line => .ok line
      | .error _ =>
        match pyReplace (dget config "main_executable" (.vstr "?.exe")) '\\' "\\\\" with
        | .error e => .error e
        | .ok me =>
          match ditem config "uninstall_reg_key" with
          | .error e => .error e
          | .ok rk =>
            .ok ("WriteRegStr " ++ adminreg ++ " \"" ++ pyStr rk ++
                 "\" \"DisplayIcon\" \"$INSTDIR\\\\" ++ me ++
                 "\" ; Default icon due to path issue")
    else
      match pyReplace (dget config "main_executable" (.vstr "?.exe")) '\\' "\\\\" with
      | .error e => .error e
      | .ok me =>
        match ditem config "uninstall_reg_key" with
        | .error e => .error e
        | .ok rk =>
          .ok ("WriteRegStr " ++ adminreg ++ " \"" ++ pyStr rk ++
               "\" \"DisplayIcon\" \"$INSTDIR\\\\" ++ me ++ "\"")

/-- A piece of the template: literal text or a named `{slot}`. -/
inductive Seg where
  | lit (s : String)
  | slot (k : String)
deriving DecidableEq, Repr

/-- The module-level `NSI_TEMPLATE` string of the source, split at its
`{slot}` markers (Python escape sequences resolved). -/
def NSI_TEMPLATE : List Seg := [
  Seg.lit "\n; NSIS script generated with NSIS Script Generator\n; © ",
  Seg.slot "current_year",
  Seg.lit " Thibault Savenkoff\n; Generated on: ",
  Seg.slot "generation_date",
  Seg.lit "\n\n!include MUI2.nsh\n\n; --- Application Info ---\nName \"",
  Seg.slot "app_name",
  Seg.lit "\"\nOutFile \"",
  Seg.slot "output_installer_name",
  Seg.lit "\"\nInstallDir \"",
  Seg.slot "install_dir_base",
  Seg.lit "\\",
  Seg.slot "install_dir_name",
  Seg.lit "\"\nInstallDirRegKey ",
  Seg.slot "adminregistry",
  Seg.lit " \"",
  Seg.slot "install_path_reg_key",
  Seg.lit "\" \"Install_Dir\"\nBrandingText \"",
  Seg.slot "branding",
  Seg.lit "\"\n\n; --- Version Information (for EXE properties) ---\nVIProductVersion \"",
  Seg.slot "product_version",
  Seg.lit "\"\nVIAddVersionKey \"ProductName\" \"",
  Seg.slot "app_name",
  Seg.lit "\"\nVIAddVersionKey \"CompanyName\" \"",
  Seg.slot "publisher",
  Seg.lit "\"\nVIAddVersionKey \"LegalCopyright\" \"Copyright (c) ",
  Seg.slot "current_year",
  Seg.lit " ",
  Seg.slot "publisher",
  Seg.lit "\"\nVIAddVersionKey \"FileDescription\" \"",
  Seg.slot "app_name",
  Seg.lit " Installer\"\nVIAddVersionKey \"FileVersion\" \"",
  Seg.slot "app_version",
  Seg.lit "\"\nVIAddVersionKey \"ProductVersion\" \"",
  Seg.slot "product_version",
  Seg.lit "\"\n\n; --- Interface Settings ---\n",
  Seg.slot "request_execution_level",
  Seg.lit "\n",
  Seg.slot "set_compressor_command",
  Seg.lit "\n\n; --- Variables ---\nVar StartMenuFolder\n\n; --- MUI Settings ---\n",
  Seg.slot "mui_defines",
  Seg.lit "\n\n; --- Pages ---\n",
  Seg.slot "page_welcome",
  Seg.lit "\n",
  Seg.slot "page_license",
  Seg.lit "\n",
  Seg.slot "page_directory",
  Seg.lit "\n!insertmacro MUI_PAGE_INSTFILES\n",
  Seg.slot "page_finish",
  Seg.lit "\n\n; --- Uninstaller Pages ---\n!insertmacro MUI_UNPAGE_CONFIRM\n!insertmacro MUI_UNPAGE_INSTFILES\n\n; --- Language Settings ---\n; NSIS will show a language selection dialog if multiple languages are loaded.\n",
  Seg.slot "language_macros",
  Seg.lit "\n\n; --- Functions ---\nFunction .onInit\n  ; Set Start Menu Folder variable\n  StrCpy $StartMenuFolder \"",
  Seg.slot "start_menu_folder",
  Seg.lit "\"\nFunctionEnd\n\n; --- Installation Section ---\nSection \"Install\" SecInstall\n  SetOutPath $INSTDIR\n  SetOverwrite ifnewer\n\n  ; --- Files ---\n  ; NSIS uses backslashes in paths within the script\n  File /r \"",
  Seg.slot "source_dir_nsis",
  Seg.lit "\\*.*\"\n\n  ; --- Registry ---\n  WriteRegStr ",
  Seg.slot "adminregistry",
  Seg.lit " \"",
  Seg.slot "install_path_reg_key",
  Seg.lit "\" \"Install_Dir\" \"$INSTDIR\"\n  WriteRegStr ",
  Seg.slot "adminregistry",
  Seg.lit " \"",
  Seg.slot "uninstall_reg_key",
  Seg.lit "\" \"DisplayName\" \"",
  Seg.slot "app_name",
  Seg.lit " (remove only)\"\n  WriteRegStr ",
  Seg.slot "adminregistry",
  Seg.lit " \"",
  Seg.slot "uninstall_reg_key",
  Seg.lit "\" \"UninstallString\" \x27\"$INSTDIR\\uninstall.exe\"\x27\n  WriteRegStr ",
  Seg.slot "adminregistry",
  Seg.lit " \"",
  Seg.slot "uninstall_reg_key",
  Seg.lit "\" \"QuietUninstallString\" \x27\"$INSTDIR\\uninstall.exe\" /S\x27\n  ",
  Seg.slot "uninstall_icon_reg",
  Seg.lit "\n  WriteRegStr ",
  Seg.slot "adminregistry",
  Seg.lit " \"",
  Seg.slot "uninstall_reg_key",
  Seg.lit "\" \"Publisher\" \"",
  Seg.slot "publisher",
  Seg.lit "\"\n  WriteRegStr ",
  Seg.slot "adminregistry",
  Seg.lit " \"",
  Seg.slot "uninstall_reg_key",
  Seg.lit "\" \"DisplayVersion\" \"",
  Seg.slot "app_version",
  Seg.lit "\"\n  WriteRegStr ",
  Seg.slot "adminregistry",
  Seg.lit " \"",
  Seg.slot "uninstall_reg_key",
  Seg.lit "\" \"URLInfoAbout\" \"",
  Seg.slot "website",
  Seg.lit "\"\n  WriteRegDWORD ",
  Seg.slot "adminregistry",
  Seg.lit " \"",
  Seg.slot "uninstall_reg_key",
  Seg.lit "\" \"NoModify\" 1\n  WriteRegDWORD ",
  Seg.slot "adminregistry",
  Seg.lit " \"",
  Seg.slot "uninstall_reg_key",
  Seg.lit "\" \"NoRepair\" 1\n\n  ; --- Uninstaller ---\n  WriteUninstaller \"$INSTDIR\\uninstall.exe\"\n\n  ; --- Shortcuts ---\n",
  Seg.slot "create_shortcuts_block",
  Seg.lit "\n\nSectionEnd\n\n; --- Uninstallation Section ---\nSection \"Uninstall\" SecUninstall\n  ; --- Remove Shortcuts ---\n",
  Seg.slot "remove_shortcuts_block",
  Seg.lit "\n\n  ; --- Remove Files ---\n  Delete \"$INSTDIR\\uninstall.exe\"\n  RMDir /r \"$INSTDIR\"\n\n  ; --- Remove Registry Keys ---\n  DeleteRegKey ",
  Seg.slot "adminregistry",
  Seg.lit " \"",
  Seg.slot "uninstall_reg_key",
  Seg.lit "\"\n  DeleteRegKey ",
  Seg.slot "adminregistry",
  Seg.lit " \"",
  Seg.slot "install_path_reg_key",
  Seg.lit "\"\n\nSectionEnd\n"]

/-- Python `template.format(**context)`: substitute every slot left to
right, raising `KeyError` at the first slot with no value in the context. -/
def formatTpl : List Seg → Dict → Except PyErr String
  | [], _ => .ok ""
  | .lit s :: rest, ctx =>
    match formatTpl rest ctx with
    | .error e => .error e
    | .ok r => .ok (s ++ r)
  | .slot k :: rest, ctx =>
    match dfind ctx k with
    | none => .error (.keyError k)
    | some v =>
      match formatTpl rest ctx with
      | .error e => .error e
      | .ok r => .ok (pyStr v ++ r)

/-- Error line printed at source line 447 when the template raises
`KeyError` (Python formats the exception as the quoted key name). -/
def keyErrorMessage (k : String) : String :=
  "\nError: Missing configuration key needed for template: \x27" ++ k ++ "\x27"

/-- Line printed at source line 448, listing the available context keys. -/
def contextKeysLine (ctx : Dict) : String :=
  "Context keys available: dict_keys([" ++
    String.intercalate ", " (ctx.map (fun p => "\x27" ++ p.1 ++ "\x27")) ++ "])"

/-- Lines 325-438 of the source: assemble the substitution context (and its
log of prints), threading the in-place config mutation.  Each `match` on an
`.error` models a Python exception propagating out of the function. -/
def buildContext (env : Env) (config : Dict) :
    Except PyErr (Dict × Dict × List String) :=
  let context0 :=
    dupdate (dset (dset [] "generation_date" (.vstr env.genDate))
              "current_year" (.vint env.currentYear)) config
  match languageMacroStep config with
  | .error e => .error e
  | .ok (langBlock, log) =>
    let context1 := dset context0 "language_macros" (.vstr langBlock)
    let context2 := dset context1 "install_dir_base" (.vstr (installDirBase config))
    let context3 :=
      dset context2 "request_execution_level" (.vstr (requestExecutionLevel config))
    let adminreg := adminRegistry config
    let context4 := dset context3 "adminregistry" (.vstr adminreg)
    match setCompressorCommand config with
    | .error e => .error e
    | .ok comp =>
      let context5 := dset context4 "set_compressor_command" (.vstr comp)
      match muiDefinesStep env config with
      | .error e => .error e
      | .ok (muiStr, config2) =>
        let context6 := dset context5 "mui_defines" (.vstr muiStr)
        let context7 := dset context6 "page_welcome" (.vstr (pageWelcome config2))
        let context8 := dset context7 "page_finish" (.vstr (pageFinish config2))
        let context9 := dset context8 "page_directory" (.vstr (pageDirectory config2))
        match pageLicense config2 with
        | .error e => .error e
        | .ok pl =>
          let context10 := dset context9 "page_license" (.vstr pl)
          match ditem config2 "start_menu_folder" with
          | .error e => .error e
          | .ok smf =>
            let context11 := dset context10 "start_menu_folder" smf
            match ditem config2 "source_dir" with
            | .error e => .error e
            | .ok sd =>
              match pyReplace sd '/' "\\" with
              | .error e => .error e
              | .ok sdn =>
                let context12 := dset context11 "source_dir_nsis" (.vstr sdn)
                let blocks := shortcutBlocks config2
                let context13 :=
                  dset context12 "create_shortcuts_block" (.vstr blocks.1)
                let context14 :=
                  dset context13 "remove_shortcuts_block" (.vstr blocks.2)
                match uninstallIconReg env config2 adminreg with
                | .error e => .error e
                | .ok icon =>
                  let context15 := dset context14 "uninstall_icon_reg" (.vstr icon)
                  .ok (context15, config2, log)

/-- The renderer `generate_nsis_script_from_config`: build the context, then
format the template; a `KeyError` from formatting is caught and turned into
a `None` return with an error message naming the missing key (lines
441-452). -/
def generate (env : Env) (config : Dict) : Except PyErr RenderResult :=
  match buildContext env config with
  | .error e => .error e
  | .ok (ctx, config2, log) =>
    match formatTpl NSI_TEMPLATE ctx with
    | .ok s => .ok ⟨some s, config2, log⟩
    | .error (.keyError k) =>
      .ok ⟨none, config2, log ++ [keyErrorMessage k, contextKeysLine ctx]⟩
    | .error _ =>
      .ok ⟨none, config2, log ++ ["\nError generating NSIS script"]⟩

/-! ### Counting helpers and concrete records used by the claim theorems -/

/-- Number of positions of a character list at which a pattern occurs. -/
def countOccChars (pat : List Char) : List Char → Nat
  | [] => 0
  | c :: rest => (if pat.isPrefixOf (c :: rest) then 1 else 0) + countOccChars pat rest

/-- Number of occurrences of a nonempty pattern in a string. -/
def countOcc (pat s : String) : Nat := countOccChars pat.data s.data

/-- Does a literal template chunk end in one of the four registry-statement
keywords (followed by the space before the hive token)? -/
def regDirectiveEnding (s : String) : Bool :=
  endsWithStr s "WriteRegStr " || endsWithStr s "WriteRegDWORD " ||
    endsWithStr s "InstallDirRegKey " || endsWithStr s "DeleteRegKey "

/-- Total number of registry-statement keywords in the literal text of a
template. -/
def litRegCount (tpl : List Seg) : Nat :=
  (tpl.map (fun seg =>
    match seg with
    | Seg.lit s =>
      countOcc "WriteRegStr" s + countOcc "WriteRegDWORD" s +
        countOcc "InstallDirRegKey" s + countOcc "DeleteRegKey" s
    | Seg.slot _ => 0)).sum

/-- Number of literal chunks that end in a registry-statement keyword. -/
def regEnderCount (tpl : List Seg) : Nat :=
  (tpl.filter (fun seg =>
    match seg with
    | Seg.lit s => regDirectiveEnding s
    | Seg.slot _ => false)).length

/-- Every literal chunk that ends in a registry-statement keyword is
immediately followed by the `adminregistry` slot. -/
def hiveSlotsOk : List Seg → Bool
  | Seg.lit s :: Seg.slot k :: rest =>
    (!regDirectiveEnding s || (k == "adminregistry")) && hiveSlotsOk (Seg.slot k :: rest)
  | _ :: rest => hiveSlotsOk rest
  | [] => true

/-- Environment for the C4 witness: nothing exists on disk, resolution is
the identity, and the clock is fixed. -/
def c4env : Env := ⟨fun _ => false, fun s => some s, "2025-05-05 12:00:00", 2025⟩

/-- A small non-elevated configuration for the C4 witness. -/
def c4cfg : Dict := [("request_admin", PyVal.vbool false),
  ("start_menu_folder", PyVal.vstr "SM"), ("source_dir", PyVal.vstr "C:/s"),
  ("uninstall_reg_key", PyVal.vstr "U"), ("main_executable", PyVal.vstr "a.exe"),
  ("selected_languages", PyVal.vlist ["English"])]

/-- The context, config and log built for the C4 witness. -/
def c4parts : Dict × Dict × List String :=
  match buildContext c4env c4cfg with
  | .ok t => t
  | .error _ => ([], [], [])

/-- Environment for the C9 witness: every path exists, resolution is the
identity, the clock is fixed. -/
def c9env : Env := ⟨fun _ => true, fun s => some s, "2025-05-05 12:00:00", 2025⟩

/-- A configuration for the C9 witness carrying every required field except
`branding`. -/
def c9cfg : Dict := [("app_name", PyVal.vstr "A"),
  ("app_version", PyVal.vstr "1"), ("product_version", PyVal.vstr "1.0.0.0"),
  ("publisher", PyVal.vstr "P"), ("website", PyVal.vstr "w"),
  ("output_installer_name", PyVal.vstr "o.exe"), ("install_dir_name", PyVal.vstr "D"),
  ("install_path_reg_key", PyVal.vstr "I"), ("uninstall_reg_key", PyVal.vstr "U"),
  ("start_menu_folder", PyVal.vstr "S"), ("source_dir", PyVal.vstr "C:/s"),
  ("license_file", PyVal.vstr "L.txt"), ("main_executable", PyVal.vstr "a.exe"),
  ("selected_languages", PyVal.vlist ["English"])]

/-- The context, config and log built for the C9 witness. -/
def c9parts : Dict × Dict × List String :=
  match buildContext c9env c9cfg with
  | .ok t => t
  | .error _ => ([], [], [])

/-- Environment for the C6 witness: every path exists. -/
def c6env : Env := ⟨fun _ => true, fun s => some s, "2025-05-05 12:00:00", 2025⟩

/-- Configuration for the C6 witness: flag set and a license file present. -/
def c6cfg : Dict :=
  [("show_license_page", PyVal.vbool true), ("license_file", PyVal.vstr "L.txt")]

/-- The MUI-step result for the C6 witness. -/
def c6mui : String × Dict :=
  match muiDefinesStep c6env c6cfg with
  | .ok t => t
  | .error _ => ("", [])

/-- Environment for the C7 theorems: no path exists on disk. -/
def c7env : Env := ⟨fun _ => false, fun s => some s, "2025-05-05 12:00:00", 2025⟩

/-- A complete configuration whose license flag is set while the license
file does not exist at render time. -/
def c7cfg : Dict := [("app_name", PyVal.vstr "A"),
  ("app_version", PyVal.vstr "1"), ("product_version", PyVal.vstr "1.0.0.0"),
  ("publisher", PyVal.vstr "P"), ("website", PyVal.vstr "w"),
  ("output_installer_name", PyVal.vstr "o.exe"), ("install_dir_name", PyVal.vstr "D"),
  ("install_path_reg_key", PyVal.vstr "I"), ("branding", PyVal.vstr "B"),
  ("uninstall_reg_key", PyVal.vstr "U"),
  ("start_menu_folder", PyVal.vstr "S"), ("source_dir", PyVal.vstr "C:/s"),
  ("license_file", PyVal.vstr "L.txt"), ("show_license_page", PyVal.vbool true),
  ("main_executable", PyVal.vstr "a.exe"),
  ("selected_languages", PyVal.vlist ["English"])]

/-- The config dict as it stands after a renderer call, when the call
returns. -/
def renderedConfig (env : Env) (config : Dict) : Option Dict :=
  match generate env config with
  | .ok r => some r.config
  | .error _ => none

/-- The renderer result for the C7 witness call. -/
def c7res : RenderResult :=
  match generate c7env c7cfg with
  | .ok r => r
  | .error _ => ⟨none, [], []⟩

/-- Environment A for C8: fixed clock reading. -/
def c8envA : Env := ⟨fun _ => false, fun s => some s, "2025-01-01 00:00:00", 2025⟩

/-- Environment B for C8: identical to A except for the clock reading. -/
def c8envB : Env := ⟨fun _ => false, fun s => some s, "2026-02-02 00:00:00", 2025⟩

/-- A complete configuration that renders successfully. -/
def c8cfg : Dict := [("app_name", PyVal.vstr "A"),
  ("app_version", PyVal.vstr "1"), ("product_version", PyVal.vstr "1.0.0.0"),
  ("publisher", PyVal.vstr "P"), ("website", PyVal.vstr "w"),
  ("output_installer_name", PyVal.vstr "o.exe"), ("install_dir_name", PyVal.vstr "D"),
  ("install_path_reg_key", PyVal.vstr "I"), ("branding", PyVal.vstr "B"),
  ("uninstall_reg_key", PyVal.vstr "U"),
  ("start_menu_folder", PyVal.vstr "S"), ("source_dir", PyVal.vstr "C:/s"),
  ("main_executable", PyVal.vstr "a.exe"),
  ("selected_languages", PyVal.vlist ["English"])]

/-- The text a renderer call returns, when it returns one. -/
def renderedText (env : Env) (config : Dict) : Option String :=
  match generate env config with
  | .ok r => r.output
  | .error _ => none

/-- Environment for the C2 theorem: nothing exists on disk. -/
def c2env : Env := ⟨fun _ => false, fun s => some s, "2025-05-05 12:00:00", 2025⟩

/-- The collector's output when the user cancels the main-executable
selection and both icon selections: `main_executable` is `None` and both
icon paths are empty strings. -/
def c2cfg : Dict := [("app_name", PyVal.vstr "A"),
  ("main_executable", PyVal.vnone),
  ("installer_icon", PyVal.vstr ""), ("uninstaller_icon", PyVal.vstr ""),
  ("license_file", PyVal.vstr ""),
  ("start_menu_folder", PyVal.vstr "S"), ("source_dir", PyVal.vstr "C:/s"),
  ("uninstall_reg_key", PyVal.vstr "U"),
  ("selected_languages", PyVal.vlist ["English"])]

/-! ### Dictionary, string and formatting lemmas -/

theorem dfind_dset (d : Dict) (k : String) (v : PyVal) (k' : String) :
    dfind (dset d k v) k' = if k = k' then some v else dfind d k' := by
  induction d with
  | nil => simp [dset, dfind]
  | cons hd tl ih =>
    obtain ⟨k'', v''⟩ := hd
    by_cases h : k'' = k
    · subst h
      by_cases h2 : k'' = k'
      · subst h2; simp [dset, dfind]
      · simp [dset, dfind, h2]
    · by_cases h2 : k'' = k'
      · subst h2
        have hne : k ≠ k'' := fun hkk => h hkk.symm
        simp [dset, dfind, h, hne]
      · simp [dset, dfind, h, h2, ih]

theorem str_empty_append (s : String) : "" ++ s = s := by
  cases s; rfl

theorem str_append_assoc (a b c : String) : a ++ b ++ c = a ++ (b ++ c) :=
  String.append_assoc a b c

/-- Formatting a template successfully splits the output around the value of
any slot occurring in the template. -/
theorem formatTpl_mem_slot (tpl : List Seg) (ctx : Dict) (s : String) (k : String)
    (hf : formatTpl tpl ctx = .ok s) (hmem : Seg.slot k ∈ tpl) :
    ∃ v pre post, dfind ctx k = some v ∧ s = pre ++ (pyStr v ++ post) := by
  induction tpl generalizing s with
  | nil => cases hmem
  | cons hd rest ih =>
    cases hd with
    | lit t =>
      unfold formatTpl at hf
      cases hr : formatTpl rest ctx with
      | error e => rw [hr] at hf; exact absurd hf (by simp)
      | ok r =>
        rw [hr] at hf
        have hs : s = t ++ r := by cases hf; rfl
        have hmem' : Seg.slot k ∈ rest := by
          rcases List.mem_cons.mp hmem with heq | h'
        
          · cases heq
          · exact h'
        obtain ⟨v, pre, post, hv, hsplit⟩ := ih r hr hmem'
        exact ⟨v, t ++ pre, post, hv, by rw [hs, hsplit, str_append_assoc]⟩
    | slot k' =>
      unfold formatTpl at hf
      cases hd2 : dfind ctx k' with
      | none => rw [hd2] at hf; exact absurd hf (by simp)
      | some v' =>
        rw [hd2] at hf
        cases hr : formatTpl rest ctx with
        | error e => rw [hr] at hf; exact absurd hf (by simp)
        | ok r =>
          rw [hr] at hf
          have hs : s = pyStr v' ++ r := by cases hf; rfl
          rcases List.mem_cons.mp hmem with heq | hmem'
          · have hk : k = k' := by cases heq; rfl
            subst hk
            exact ⟨v', "", r, hd2, by rw [hs, str_empty_append]⟩
          · obtain ⟨v, pre, post, hv, hsplit⟩ := ih r hr hmem'
            exact ⟨v, pyStr v' ++ pre, post, hv, by rw [hs, hsplit, str_append_assoc]⟩

/-- When formatting succeeds, every slot of the template had a value in the
context: no partially substituted script can be returned. -/
theorem formatTpl_ok_slots (tpl : List Seg) (ctx : Dict) (s : String)
    (hf : formatTpl tpl ctx = .ok s) :
    ∀ k, Seg.slot k ∈ tpl → (dfind ctx k).isSome := by
  induction tpl generalizing s with
  | nil => intro k hk; cases hk
  | cons hd rest ih =>
    intro k hk
    cases hd with
    | lit t =>
      unfold formatTpl at hf
      cases hr : formatTpl rest ctx with
      | error e => rw [hr] at hf; exact absurd hf (by simp)
      | ok r =>
        have hmem' : Seg.slot k ∈ rest := by
          rcases List.mem_cons.mp hk with heq | h'
          · cases heq
          · exact h'
        exact ih r hr k hmem'
    | slot k' =>
      unfold formatTpl at hf
      cases hd2 : dfind ctx k' with
      | none => rw [hd2] at hf; exact absurd hf (by simp)
      | some v' =>
        rw [hd2] at hf
        cases hr : formatTpl rest ctx with
        | error e => rw [hr] at hf; exact absurd hf (by simp)
        | ok r =>
          rcases List.mem_cons.mp hk with heq | hmem'
          · have hkk : k = k' := by cases heq; rfl
            rw [hkk, hd2]; rfl
          · exact ih r hr k hmem'

/-! ### Inversion lemmas for the renderer -/

/-- Inversion of a successful context build: the context entries the claims
talk about are exactly the corresponding helper outputs, the log is the
language step's print, and the returned config is the MUI step's. -/
theorem buildContext_spec (env : Env) (config ctx cfg2 : Dict) (log : List String)
    (h : buildContext env config = .ok (ctx, cfg2, log)) :
    ∃ block comp muiStr pl icon,
      languageMacroStep config = .ok (block, log) ∧
      setCompressorCommand config = .ok comp ∧
      muiDefinesStep env config = .ok (muiStr, cfg2) ∧
      pageLicense cfg2 = .ok pl ∧
      uninstallIconReg env cfg2 (adminRegistry config) = .ok icon ∧
      dfind ctx "language_macros" = some (.vstr block) ∧
      dfind ctx "install_dir_base" = some (.vstr (installDirBase config)) ∧
      dfind ctx "adminregistry" = some (.vstr (adminRegistry config)) ∧
      dfind ctx "set_compressor_command" = some (.vstr comp) ∧
      dfind ctx "page_license" = some (.vstr pl) ∧
      dfind ctx "create_shortcuts_block" = some (.vstr (shortcutBlocks cfg2).1) ∧
      dfind ctx "remove_shortcuts_block" = some (.vstr (shortcutBlocks cfg2).2) ∧
      dfind ctx "uninstall_icon_reg" = some (.vstr icon) := by
  unfold buildContext at h
  dsimp only at h
  split at h
  next e heq => simp at h
  next langBlock log1 hlang =>
    split at h
    next e heq => simp at h
    next comp hcomp =>
      split at h
      next e heq => simp at h
      next muiStr config2 hmui =>
        split at h
        next e heq => simp at h
        next pl hpl =>
          split at h
          next e heq => simp at h
          next smf hsmf =>
            split at h
            next e heq => simp at h
            next sd hsd =>
              split at h
              next e heq => simp at h
              next sdn hrep =>
                split at h
                next e heq => simp at h
                next icon hicon =>
                  simp only [Except.ok.injEq, Prod.mk.injEq] at h
                  obtain ⟨h1, h2, h3⟩ := h
                  subst h1; subst h2; subst h3
                  refine ⟨langBlock, comp, muiStr, pl, icon,
                    hlang, hcomp, hmui, hpl, hicon, ?_, ?_, ?_, ?_, ?_, ?_, ?_, ?_⟩
                  all_goals simp [dfind_dset]

/-- Inversion of a successful renderer call: the returned config is the one
built by `buildContext`, and returned text is exactly the formatted
template. -/
theorem generate_ok_parts (env : Env) (config : Dict) (r : RenderResult)
    (h : generate env config = .ok r) :
    ∃ ctx log, buildContext env config = .ok (ctx, r.config, log) ∧
      ∀ s, r.output = some s → formatTpl NSI_TEMPLATE ctx = .ok s := by
  unfold generate at h
  split at h
  next e heq => simp at h
  next ctx cfg2 log hb =>
    split at h
    next s hf =>
      cases h
      exact ⟨ctx, log, hb, fun s' hs' => by cases hs'; exact hf⟩
    next k hf =>
      cases h
      exact ⟨ctx, log, hb, fun s' hs' => absurd hs' (by simp)⟩
    next e hf hne =>
      cases h
      exact ⟨ctx, log, hb, fun s' hs' => absurd hs' (by simp)⟩

/-- A successful render's text contains the value of any template slot. -/
theorem generate_output_contains (env : Env) (config : Dict) (r : RenderResult)
    (s : String) (k : String) (v : PyVal)
    (hg : generate env config = .ok r) (ho : r.output = some s)
    (hmem : Seg.slot k ∈ NSI_TEMPLATE)
    (hctx : ∀ ctx log, buildContext env config = .ok (ctx, r.config, log) →
      dfind ctx k = some v) :
    ∃ pre post, s = pre ++ (pyStr v ++ post) := by
  obtain ⟨ctx, log, hb, hfmt⟩ := generate_ok_parts env config r hg
  have hf := hfmt s ho
  obtain ⟨v', pre, post, hv', hsplit⟩ := formatTpl_mem_slot _ _ _ _ hf hmem
  have hvv : v' = v := by rw [hctx ctx log hb] at hv'; cases hv'; rfl
  exact ⟨pre, post, by rw [hsplit, hvv]⟩

/-- The MUI step only ever touches `show_license_page`: the config comes
back unchanged when the license file is set and exists, and otherwise with
`show_license_page` forced to `False`. -/
theorem muiDefinesStep_config (env : Env) (config : Dict) (m : String) (cfg2 : Dict)
    (h : muiDefinesStep env config = .ok (m, cfg2)) :
    ∃ b, fieldExists env config "license_file" = .ok b ∧
      cfg2 = if b then config else dset config "show_license_page" (.vbool false) := by
  unfold muiDefinesStep at h
  dsimp only at h
  split at h
  next e heq => simp at h
  next b hb =>
    refine ⟨b, hb, ?_⟩
    split at h
    next hbt =>
      rw [if_pos hbt]
      split at h
      next e heq => simp at h
      next lv hlv =>
        split at h
        next e heq => simp at h
        next ls hls =>
          split at h
          next e heq => simp at h
          next defs2 hdefs =>
            simp only [Except.ok.injEq, Prod.mk.injEq] at h
            exact h.2.symm
    next hbf =>
      rw [if_neg hbf]
      split at h
      next e heq => simp at h
      next defs2 hdefs =>
        simp only [Except.ok.injEq, Prod.mk.injEq] at h
        exact h.2.symm

/-- Value of the compound existence guard on a string-valued field. -/
theorem fieldExists_str (env : Env) (config : Dict) (k : String) (s : String)
    (h : dfind config k = some (.vstr s)) :
    fieldExists env config k = .ok (!(s == "") && env.pathExists s) := by
  unfold fieldExists ditem dget
  rw [h]
  by_cases hs : s = ""
  · subst hs; simp [truthy]
  · simp [truthy, hs, pyExists]

/-- Value of the license-page slot on a config with typed entries. -/
theorem pageLicense_typed (config : Dict) (sl : Bool) (lf : String)
    (hsl : dfind config "show_license_page" = some (.vbool sl))
    (hlf : dfind config "license_file" = some (.vstr lf)) :
    pageLicense config = .ok (if sl && !(lf == "") then
        "!insertmacro MUI_PAGE_LICENSE \"" ++ lf ++ "\""
      else "; License page disabled or no file specified/found") := by
  unfold pageLicense ditem dget
  rw [hsl, hlf]
  by_cases hs : lf = ""
  · subst hs; simp [truthy]
  · cases sl <;> simp [truthy, hs, pyStr]

/-- Every branch of `uninstallIconReg` writes its line with the hive token
it was handed. -/
theorem uninstallIconReg_hive (env : Env) (config : Dict) (adminreg : String)
    (icon : String) (h : uninstallIconReg env config adminreg = .ok icon) :
    ∃ rest, icon = "WriteRegStr " ++ adminreg ++ " \"" ++ rest := by
  unfold uninstallIconReg at h
  split at h
  next e heq => simp at h
  next iconVal hpick =>
    split at h
    next htr =>
      split at h
      next line hline =>
        split at hline
        next e heq => simp at hline
        next a habs =>
          split at hline
          next e heq => simp at hline
          next rk hrk =>
            cases hline
            cases h
            exact ⟨pyStr rk ++ ("\" \"DisplayIcon\" \"" ++
              (replaceChar '\\' "\\\\" a ++ "\"")), by simp [str_append_assoc]⟩
      next err hline =>
        split at h
        next e heq => simp at h
        next me hme =>
          split at h
          next e heq => simp at h
          next rk hrk =>
            cases h
            exact ⟨pyStr rk ++ ("\" \"DisplayIcon\" \"$INSTDIR\\\\" ++
              (me ++ "\" ; Default icon due to path issue")), by simp [str_append_assoc]⟩
    next htr =>
      split at h
      next e heq => simp at h
      next me hme =>
        split at h
        next e heq => simp at h
        next rk hrk =>
          cases h
          exact ⟨pyStr rk ++ ("\" \"DisplayIcon\" \"$INSTDIR\\\\" ++
            (me ++ "\"")), by simp [str_append_assoc]⟩

/-- The language directive embeds the language name injectively. -/
theorem langDirective_inj : Function.Injective langDirective := by
  intro a b hab
  have h := congrArg String.data hab
  simp only [langDirective, String.data_append] at h
  exact String.ext (List.append_cancel_left (List.append_cancel_right h))

/-! ### Claims -/

/-- C1 (confirmed): for every complete configuration record the install-root
token is determined by (elevated, prefer-64-bit) — the 64-bit program-files
token when both are true, the default program-files token when only elevated,
and the per-user local-app-data token when not elevated regardless of the
64-bit preference — and every successfully rendered script embeds that
token. -/
theorem c1_install_root (config : Dict) (adm p64 : Bool)
    (ha : dfind config "request_admin" = some (.vbool adm))
    (hp : dfind config "prefer_64bit" = some (.vbool p64)) :
    installDirBase config =
      (if adm && p64 then "$PROGRAMFILES64"
       else if adm then "$PROGRAMFILES" else "$LOCALAPPDATA") ∧
    (∀ env r s, generate env config = .ok r → r.output = some s →
      ∃ pre post, s = pre ++ (installDirBase config ++ post)) := by
  constructor
  · unfold installDirBase dget
    rw [ha, hp]
    cases adm <;> cases p64 <;> simp [truthy]
  · intro env r s hg ho
    have hctx : ∀ ctx log, buildContext env config = .ok (ctx, r.config, log) →
        dfind ctx "install_dir_base" = some (.vstr (installDirBase config)) := by
      intro ctx log hb
      obtain ⟨bl, cp, ms, pl, ic, _, _, _, _, _, _, h7, _⟩ :=
        buildContext_spec env config ctx r.config log hb
      exact h7
    simpa [pyStr] using generate_output_contains env config r s "install_dir_base"
      (.vstr (installDirBase config)) hg ho (by decide) hctx

/-- Witness for C1 at a concrete record: elevated install without the 64-bit
preference picks the default program-files token. -/
theorem c1_install_root_witness :
    dfind [("request_admin", PyVal.vbool true), ("prefer_64bit", PyVal.vbool false)]
        "request_admin" = some (.vbool true) ∧
    dfind [("request_admin", PyVal.vbool true), ("prefer_64bit", PyVal.vbool false)]
        "prefer_64bit" = some (.vbool false) ∧
    installDirBase [("request_admin", PyVal.vbool true), ("prefer_64bit", PyVal.vbool false)] =
      "$PROGRAMFILES" := by
  refine ⟨by decide, by decide, ?_⟩
  have h := (c1_install_root
    [("request_admin", PyVal.vbool true), ("prefer_64bit", PyVal.vbool false)]
    true false (by decide) (by decide)).1
  simpa using h

/-- C5 (confirmed): with a non-empty language list the language block is one
directive per list entry, in the list's order (and, the list being
deduplicated, each of its languages appears exactly once); with an empty or
absent list a single hard-coded English directive is emitted and a warning
is logged; a successfully rendered script embeds the block. -/
theorem c5_language_block (config : Dict) (langs : List String)
    (h : dfind config "selected_languages" = some (.vlist langs)) :
    (langs ≠ [] →
      languageMacroStep config =
        .ok (joinWith "\n" (langs.map langDirective),
             ["Debug: Languages selected for NSIS: " ++ pyStr (.vlist langs)]) ∧
      (langs.Nodup → ∀ l ∈ langs,
        (langs.map langDirective).count (langDirective l) = 1)) ∧
    (langs = [] →
      languageMacroStep config =
        .ok (joinWith "\n" [langDirective "English"],
             ["Warning: No languages selected, defaulting to English."])) ∧
    (∀ env r s block log, generate env config = .ok r → r.output = some s →
      languageMacroStep config = .ok (block, log) →
      ∃ pre post, s = pre ++ (block ++ post)) := by
  refine ⟨?_, ?_, ?_⟩
  · intro hne
    constructor
    · unfold languageMacroStep
      rw [h]
      cases langs with
      | nil => exact absurd rfl hne
      | cons a as => simp [truthy, pyIter]
    · intro hnd l hl
      rw [List.count_map_of_injective _ _ langDirective_inj]
      exact List.count_eq_one_of_mem hnd hl
  · intro he
    subst he
    unfold languageMacroStep
    rw [h]
    simp [truthy]
  · intro env r s block log hg ho hstep
    have hctx : ∀ ctx log2, buildContext env config = .ok (ctx, r.config, log2) →
        dfind ctx "language_macros" = some (.vstr block) := by
      intro ctx log2 hb
      obtain ⟨bl, cp, ms, pl, ic, h1, _, _, _, _, h6, _, _, _, _, _, _, _⟩ :=
        buildContext_spec env config ctx r.config log2 hb
      rw [hstep] at h1
      cases h1
      exact h6
    simpa [pyStr] using generate_output_contains env config r s "language_macros"
      (.vstr block) hg ho (by decide) hctx

/-- Witness for C5 at a concrete two-language record. -/
theorem c5_language_block_witness :
    dfind [("selected_languages", PyVal.vlist ["English", "French"])]
      "selected_languages" = some (.vlist ["English", "French"]) ∧
    languageMacroStep [("selected_languages", PyVal.vlist ["English", "French"])] =
      .ok (joinWith "\n" (["English", "French"].map langDirective),
           ["Debug: Languages selected for NSIS: " ++ pyStr (.vlist ["English", "French"])]) ∧
    (["English", "French"].map langDirective).count (langDirective "English") = 1 := by
  have h := c5_language_block [("selected_languages", PyVal.vlist ["English", "French"])]
    ["English", "French"] (by decide)
  exact ⟨by decide, (h.1 (by decide)).1,
    (h.1 (by decide)).2 (by decide) "English" (by decide)⟩

/-- C10 (confirmed): the compression directive is the fixed prefix
`SetCompressor `, then `/SOLID ` exactly when the solid flag is set, then
the method string lowercased; a successfully rendered script embeds it. -/
theorem c10_compressor (config : Dict) (c : String) (solid : Bool)
    (hc : dfind config "compression" = some (.vstr c))
    (hs : dfind config "solid_compression" = some (.vbool solid)) :
    setCompressorCommand config =
      .ok ("SetCompressor " ++ (if solid then "/SOLID " else "") ++
           (⟨c.data.map Char.toLower⟩ : String)) ∧
    (∀ env r s cmd, generate env config = .ok r → r.output = some s →
      setCompressorCommand config = .ok cmd →
      ∃ pre post, s = pre ++ (cmd ++ post)) := by
  constructor
  · unfold setCompressorCommand dget
    rw [hc, hs]
    simp [pyLower, truthy]
  · intro env r s cmd hg ho hcmd
    have hctx : ∀ ctx log, buildContext env config = .ok (ctx, r.config, log) →
        dfind ctx "set_compressor_command" = some (.vstr cmd) := by
      intro ctx log hb
      obtain ⟨bl, cp, ms, pl, ic, _, h2, _, _, _, _, _, _, h9, _, _, _, _⟩ :=
        buildContext_spec env config ctx r.config log hb
      rw [hcmd] at h2
      cases h2
      exact h9
    simpa [pyStr] using generate_output_contains env config r s "set_compressor_command"
      (.vstr cmd) hg ho (by decide) hctx

/-- Witness for C10: an upper-case method name is lowercased in the
directive. -/
theorem c10_compressor_witness :
    dfind [("compression", PyVal.vstr "LZMA"), ("solid_compression", PyVal.vbool true)]
      "compression" = some (.vstr "LZMA") ∧
    setCompressorCommand
      [("compression", PyVal.vstr "LZMA"), ("solid_compression", PyVal.vbool true)] =
      .ok "SetCompressor /SOLID lzma" := by
  have h := (c10_compressor
    [("compression", PyVal.vstr "LZMA"), ("solid_compression", PyVal.vbool true)]
    "LZMA" true (by decide) (by decide)).1
  refine ⟨by decide, ?_⟩
  rw [h]
  rfl

/-- C4 (confirmed): within one render a single hive token is derived —
`HKLM` exactly when elevation is requested — the `adminregistry` slot that
every registry statement of the template reads holds that token, the
generated icon registry line embeds the same token, and structurally all
twelve registry-statement keywords of the template draw their hive from the
single `adminregistry` slot. -/
theorem c4_hive_consistency (env : Env) (config ctx cfg2 : Dict) (log : List String)
    (h : buildContext env config = .ok (ctx, cfg2, log)) :
    adminRegistry config =
      (if truthy (dget config "request_admin" (.vbool true)) then "HKLM" else "HKCU") ∧
    dfind ctx "adminregistry" = some (.vstr (adminRegistry config)) ∧
    (∃ rest, dfind ctx "uninstall_icon_reg" =
      some (.vstr ("WriteRegStr " ++ adminRegistry config ++ " \"" ++ rest))) ∧
    hiveSlotsOk NSI_TEMPLATE = true ∧
    litRegCount NSI_TEMPLATE = 12 ∧
    regEnderCount NSI_TEMPLATE = 12 := by
  obtain ⟨bl, cp, ms, pl, ic, h1, h2, h3, h4, h5, h6, h7, h8, h9, h10, h11, h12, h13⟩ :=
    buildContext_spec env config ctx cfg2 log h
  obtain ⟨rest, hrest⟩ := uninstallIconReg_hive env cfg2 (adminRegistry config) ic h5
  exact ⟨rfl, h8, ⟨rest, by rw [h13, hrest]⟩, by decide, by decide, by decide⟩

/-- Witness for C4: the non-elevated concrete record selects the per-user
hive in the context. -/
theorem c4_hive_consistency_witness :
    buildContext c4env c4cfg = .ok (c4parts.1, c4parts.2.1, c4parts.2.2) ∧
    dfind c4parts.1 "adminregistry" = some (.vstr "HKCU") := by
  have hb : buildContext c4env c4cfg = .ok (c4parts.1, c4parts.2.1, c4parts.2.2) := by rfl
  have h := (c4_hive_consistency c4env c4cfg c4parts.1 c4parts.2.1 c4parts.2.2 hb).2.1
  refine ⟨hb, ?_⟩
  rw [h]
  rfl

/-- C9 (confirmed): whenever the derivation steps complete and some required
template slot still has no value, the renderer returns `None` (no script
text at all) together with an error message naming that missing key; and
whenever it does return text, every slot of the template had a value — no
partially substituted script is ever returned. -/
theorem c9_missing_slot (env : Env) (config ctx cfg2 : Dict) (log : List String)
    (hb : buildContext env config = .ok (ctx, cfg2, log)) :
    (∀ k, formatTpl NSI_TEMPLATE ctx = .error (.keyError k) →
      generate env config =
        .ok ⟨none, cfg2, log ++ [keyErrorMessage k, contextKeysLine ctx]⟩) ∧
    (∀ s, formatTpl NSI_TEMPLATE ctx = .ok s →
      ∀ k, Seg.slot k ∈ NSI_TEMPLATE → (dfind ctx k).isSome) := by
  constructor
  · intro k hk
    unfold generate
    rw [hb]
    dsimp only
    rw [hk]
  · intro s hs k hk
    exact formatTpl_ok_slots _ _ _ hs k hk

/-- Witness for C9: with `branding` missing the renderer returns `None` and
the error message names `branding`. -/
theorem c9_missing_slot_witness :
    buildContext c9env c9cfg = .ok (c9parts.1, c9parts.2.1, c9parts.2.2) ∧
    formatTpl NSI_TEMPLATE c9parts.1 = .error (.keyError "branding") ∧
    generate c9env c9cfg = .ok ⟨none, c9parts.2.1,
      c9parts.2.2 ++ [keyErrorMessage "branding", contextKeysLine c9parts.1]⟩ := by
  have hb : buildContext c9env c9cfg = .ok (c9parts.1, c9parts.2.1, c9parts.2.2) := by rfl
  have hf : formatTpl NSI_TEMPLATE c9parts.1 = .error (.keyError "branding") := by rfl
  exact ⟨hb, hf,
    (c9_missing_slot c9env c9cfg c9parts.1 c9parts.2.1 c9parts.2.2 hb).1 "branding" hf⟩

/-- C6 (confirmed): after the MUI step (which forces the flag off when the
file is unset or missing), the license-page slot is the directive embedding
the license path exactly when the flag was set, the path non-empty and the
file present at render time; in every other case it is exactly the disabled
placeholder, which mentions no path; a successfully rendered script embeds
the slot value. -/
theorem c6_license_page (env : Env) (config : Dict) (sl : Bool) (lf : String)
    (hsl : dfind config "show_license_page" = some (.vbool sl))
    (hlf : dfind config "license_file" = some (.vstr lf))
    (m : String) (cfg2 : Dict) (hm : muiDefinesStep env config = .ok (m, cfg2)) :
    pageLicense cfg2 =
      .ok (if sl && !(lf == "") && env.pathExists lf then
             "!insertmacro MUI_PAGE_LICENSE \"" ++ lf ++ "\""
           else "; License page disabled or no file specified/found") ∧
    (∀ r s pl, generate env config = .ok r → r.output = some s →
      pageLicense r.config = .ok pl → ∃ pre post, s = pre ++ (pl ++ post)) := by
  constructor
  · obtain ⟨b, hb, hcfg⟩ := muiDefinesStep_config env config m cfg2 hm
    have hbv : b = (!(lf == "") && env.pathExists lf) := by
      have h2 := hb.symm.trans (fieldExists_str env config "license_file" lf hlf)
      simpa using h2
    subst hbv
    by_cases hcond : (!(lf == "") && env.pathExists lf) = true
    · rw [if_pos hcond] at hcfg
      subst hcfg
      rw [pageLicense_typed cfg2 sl lf hsl hlf]
      obtain ⟨hA, hB⟩ : !(lf == "") = true ∧ env.pathExists lf = true := by
        simpa using hcond
      simp [hA, hB]
    · have hcond' : (!(lf == "") && env.pathExists lf) = false :=
        Bool.eq_false_iff.mpr hcond
      rw [if_neg hcond] at hcfg
      subst hcfg
      have hsl2 : dfind (dset config "show_license_page" (.vbool false))
          "show_license_page" = some (.vbool false) := by simp [dfind_dset]
      have hlf2 : dfind (dset config "show_license_page" (.vbool false))
          "license_file" = some (.vstr lf) := by simp [dfind_dset, hlf]
      rw [pageLicense_typed _ false lf hsl2 hlf2]
      rw [Bool.and_assoc, hcond']
      simp
  · intro r s pl2 hg ho hpl2
    have hctx : ∀ ctx log, buildContext env config = .ok (ctx, r.config, log) →
        dfind ctx "page_license" = some (.vstr pl2) := by
      intro ctx log hb2
      obtain ⟨bl, cp, ms, plv, ic, _, _, _, h4, _, _, _, _, _, h10, _, _, _⟩ :=
        buildContext_spec env config ctx r.config log hb2
      rw [hpl2] at h4
      cases h4
      exact h10
    simpa [pyStr] using generate_output_contains env config r s "page_license"
      (.vstr pl2) hg ho (by decide) hctx

/-- Witness for C6: flag set, path set, file present — the directive with
the path is emitted. -/
theorem c6_license_page_witness :
    muiDefinesStep c6env c6cfg = .ok (c6mui.1, c6mui.2) ∧
    pageLicense c6mui.2 = .ok "!insertmacro MUI_PAGE_LICENSE \"L.txt\"" := by
  have hm : muiDefinesStep c6env c6cfg = .ok (c6mui.1, c6mui.2) := by rfl
  have h := (c6_license_page c6env c6cfg true "L.txt" (by rfl) (by rfl)
    c6mui.1 c6mui.2 hm).1
  refine ⟨hm, ?_⟩
  rw [h]
  rfl

/-- C3 (counterexample): with both shortcut flags false but an elevated
install the shortcut blocks are not the bare placeholder pair — they carry
the all-users shell-context directive instead. -/
theorem c3_counterexample :
    dfind [("request_admin", PyVal.vbool true),
      ("create_startmenu_shortcut", PyVal.vbool false),
      ("create_desktop_shortcut", PyVal.vbool false)] "create_startmenu_shortcut" =
      some (.vbool false) ∧
    dfind [("request_admin", PyVal.vbool true),
      ("create_startmenu_shortcut", PyVal.vbool false),
      ("create_desktop_shortcut", PyVal.vbool false)] "create_desktop_shortcut" =
      some (.vbool false) ∧
    shortcutBlocks [("request_admin", PyVal.vbool true),
      ("create_startmenu_shortcut", PyVal.vbool false),
      ("create_desktop_shortcut", PyVal.vbool false)] =
      ("  SetShellVarContext all ; Install for all users",
       "  SetShellVarContext all ; Remove for all users") ∧
    ("  SetShellVarContext all ; Install for all users" : String) ≠
      "  ; No shortcuts configured" := by
  exact ⟨by decide, by decide, by decide, by decide⟩

/-- C3 (amended): with both shortcut booleans false the blocks contain no
CreateShortCut and no Delete directive at all; they are exactly the
placeholder pair when elevation is not requested, and exactly the all-users
shell-context pair when it is. -/
theorem c3_shortcut_blocks (config : Dict) (adm : Bool)
    (hs : dfind config "create_startmenu_shortcut" = some (.vbool false))
    (hd : dfind config "create_desktop_shortcut" = some (.vbool false))
    (ha : dfind config "request_admin" = some (.vbool adm)) :
    shortcutBlocks config =
      (if adm then ("  SetShellVarContext all ; Install for all users",
                    "  SetShellVarContext all ; Remove for all users")
       else ("  ; No shortcuts configured", "  ; No shortcuts configured")) ∧
    countOcc "CreateShortCut" (shortcutBlocks config).1 = 0 ∧
    countOcc "CreateShortCut" (shortcutBlocks config).2 = 0 ∧
    countOcc "Delete" (shortcutBlocks config).1 = 0 ∧
    countOcc "Delete" (shortcutBlocks config).2 = 0 := by
  have h1 : shortcutBlocks config =
      (if adm then ("  SetShellVarContext all ; Install for all users",
                    "  SetShellVarContext all ; Remove for all users")
       else ("  ; No shortcuts configured", "  ; No shortcuts configured")) := by
    unfold shortcutBlocks dget
    rw [hs, hd, ha]
    cases adm <;> simp [truthy, joinWith]
  refine ⟨h1, ?_, ?_, ?_, ?_⟩ <;> rw [h1] <;> cases adm <;> decide

/-- Witness for C3 (amended) at a concrete non-elevated record: both blocks
are exactly the placeholder. -/
theorem c3_shortcut_blocks_witness :
    dfind [("request_admin", PyVal.vbool false),
      ("create_startmenu_shortcut", PyVal.vbool false),
      ("create_desktop_shortcut", PyVal.vbool false)] "request_admin" =
      some (.vbool false) ∧
    shortcutBlocks [("request_admin", PyVal.vbool false),
      ("create_startmenu_shortcut", PyVal.vbool false),
      ("create_desktop_shortcut", PyVal.vbool false)] =
      ("  ; No shortcuts configured", "  ; No shortcuts configured") := by
  have h := (c3_shortcut_blocks [("request_admin", PyVal.vbool false),
    ("create_startmenu_shortcut", PyVal.vbool false),
    ("create_desktop_shortcut", PyVal.vbool false)] false
    (by decide) (by decide) (by decide)).1
  refine ⟨by decide, ?_⟩
  rw [h]
  rfl

/-- C7 (counterexample): the renderer does mutate its input — with the
license flag set but the file missing, `show_license_page` is `True` before
the call and `False` in the config the call hands back. -/
theorem c7_counterexample :
    dfind c7cfg "show_license_page" = some (.vbool true) ∧
    (renderedConfig c7env c7cfg).map (fun c => dfind c "show_license_page") =
      some (some (.vbool false)) := by
  exact ⟨by decide, by decide⟩

/-- C7 (amended): a returning renderer call leaves every field other than
`show_license_page` unchanged, and the one mutation is exactly the source's
line 361: letting the guard of line 356 (license file set and existing) be
`b`, the returned config is the input unchanged when `b` holds — so
`show_license_page` is unchanged whenever the license file is set and
exists — and is the input with `show_license_page` forced to `False` when
`b` fails, i.e. when the license file is unset or does not exist at render
time. -/
theorem c7_renderer_mutation (env : Env) (config : Dict) (r : RenderResult)
    (h : generate env config = .ok r) :
    (∀ k, k ≠ "show_license_page" → dfind r.config k = dfind config k) ∧
    ∃ b, fieldExists env config "license_file" = .ok b ∧
      r.config = (if b then config
                  else dset config "show_license_page" (.vbool false)) ∧
      (b = true → dfind r.config "show_license_page" =
        dfind config "show_license_page") ∧
      (b = false → dfind r.config "show_license_page" = some (.vbool false)) := by
  obtain ⟨ctx, log, hb, _⟩ := generate_ok_parts env config r h
  obtain ⟨bl, cp, ms, pl, ic, _, _, h3, _, _, _, _, _, _, _, _, _, _⟩ :=
    buildContext_spec env config ctx r.config log hb
  obtain ⟨b, hfe, hcfg⟩ := muiDefinesStep_config env config ms r.config h3
  refine ⟨?_, b, hfe, hcfg, ?_, ?_⟩
  · intro k hk
    rw [hcfg]
    cases b with
    | false =>
      simp only [Bool.false_eq_true, if_false]
      rw [dfind_dset, if_neg (fun hx => hk hx.symm)]
    | true => simp
  · intro hbt
    subst hbt
    rw [hcfg]
    simp
  · intro hbf
    subst hbf
    rw [hcfg]
    simp [dfind_dset]

/-- Witness for C7 (amended): on the concrete record the call returns and
leaves `app_name` untouched, and — the license file being missing in this
environment — the guard comes out false and the flag comes back `False`. -/
theorem c7_renderer_mutation_witness :
    generate c7env c7cfg = .ok c7res ∧
    dfind c7res.config "app_name" = dfind c7cfg "app_name" ∧
    fieldExists c7env c7cfg "license_file" = .ok false ∧
    dfind c7res.config "show_license_page" = some (.vbool false) := by
  have hg : generate c7env c7cfg = .ok c7res := by rfl
  obtain ⟨hkeys, b, hfe, hcfg, hbt, hbf⟩ := c7_renderer_mutation c7env c7cfg c7res hg
  have hbv : b = false := by
    have h2 : (Except.ok b : Except PyErr Bool) = .ok false :=
      hfe.symm.trans (by rfl)
    simpa using h2
  subst hbv
  exact ⟨hg, hkeys "app_name" (by decide), hfe, hbf rfl⟩

/-- C8 (counterexample): the renderer is not independent of the wall clock —
the same configuration rendered under two clock readings yields different
script text (the generation-date header line differs). -/
theorem c8_counterexample :
    renderedText c8envA c8cfg ≠ renderedText c8envB c8cfg := by decide

/-- C8 (amended): the renderer is deterministic once its impure inputs are
fixed — two environments agreeing on the existence oracle, the path
resolver and the clock readings produce identical results on every
configuration — but the output does depend on those inputs. -/
theorem c8_determinism_given_env (env1 env2 : Env) (config : Dict)
    (h1 : env1.pathExists = env2.pathExists) (h2 : env1.absPath = env2.absPath)
    (h3 : env1.genDate = env2.genDate) (h4 : env1.currentYear = env2.currentYear) :
    generate env1 config = generate env2 config := by
  obtain ⟨pe1, ap1, gd1, cy1⟩ := env1
  obtain ⟨pe2, ap2, gd2, cy2⟩ := env2
  cases h1; cases h2; cases h3; cases h4
  rfl

/-- Witness for C8 (amended): two structurally distinct but agreeing
environments render the concrete record identically. -/
theorem c8_determinism_given_env_witness :
    generate c8envA c8cfg =
      generate ⟨c8envA.pathExists, c8envA.absPath, c8envA.genDate, c8envA.currentYear⟩
        c8cfg :=
  c8_determinism_given_env c8envA
    ⟨c8envA.pathExists, c8envA.absPath, c8envA.genDate, c8envA.currentYear⟩
    c8cfg rfl rfl rfl rfl

/-- C2 (code bug): with the collector's representation of "no main
executable selected" (`main_executable = None`) and no usable icon, the icon
fallback calls `.replace` on `None` (source line 437) and the render raises
`AttributeError` instead of writing the placeholder-named `DisplayIcon`
entry. -/
theorem c2_icon_fallback_crash :
    dfind c2cfg "main_executable" = some .vnone ∧
    dfind c2cfg "uninstaller_icon" = some (.vstr "") ∧
    dfind c2cfg "installer_icon" = some (.vstr "") ∧
    uninstallIconReg c2env c2cfg "HKLM" = .error (.attributeError "replace") ∧
    generate c2env c2cfg = .error (.attributeError "replace") := by
  exact ⟨by decide, by decide, by decide, by rfl, by rfl⟩

end NSIS
